import Mathlib

/-!
Shallow embedding of the SoundCraft declarative-protocol interpreter
(`src/soundcraft/core/ai_agent.py`): the protocol data model, the
directory loader's id-collision behaviour, the execution engine
(`AIAgent._run_step` / `AIAgent.start`), the `${name}` placeholder
substitution (`AIAgent._resolve_args`) and the dotted-reference call
dispatch (`AIAgent._execute_call`), together with theorems settling the
specification claims about them.
-/

namespace SoundCraft

/-- A Python value, as far as the interpreter observes them: `None`,
booleans, integers, strings, lists and string-keyed dicts.  This is the
universe of values flowing through `AIAgent.values`, step arguments and
operation results. -/
inductive Value where
  | none : Value
  | bool (b : Bool) : Value
  | int (n : Int) : Value
  | str (s : String) : Value
  | list (xs : List Value) : Value
  | dict (entries : List (String × Value)) : Value
deriving Repr

/-- The accumulated state `self.values` (and every other string-keyed
Python dict) modelled observationally as an association list: insertion
prepends, lookup takes the first (most recent) binding. -/
abbrev PyDict := List (String × Value)

/-- Python dict assignment `d[k] = v`: the new binding shadows any older
one for the same key. -/
def dictInsert (d : List (String × α)) (k : String) (v : α) : List (String × α) :=
  (k, v) :: d

/-- Python dict lookup `d.get(k)` / `d[k]` / `k in d`. -/
def dictLookup : List (String × α) → String → Option α
  | [], _ => Option.none
  | (k, v) :: rest, key => if k = key then some v else dictLookup rest key

mutual
/-- Python `repr` of a `Value` (the shape `str` takes on non-string
values; string escaping inside `repr` is not modelled). -/
def pyRepr : Value → String
  | .none => "None"
  | .bool true => "True"
  | .bool false => "False"
  | .int n => toString n
  | .str s => "'" ++ s ++ "'"
  | .list xs => "[" ++ pyReprList xs ++ "]"
  | .dict d => "\x7b" ++ pyReprDict d ++ "\x7d"

/-- Comma-separated `repr`s of the elements of a list value. -/
def pyReprList : List Value → String
  | [] => ""
  | [v] => pyRepr v
  | v :: rest => pyRepr v ++ ", " ++ pyReprList rest

/-- Comma-separated `'key': repr` pairs of a dict value. -/
def pyReprDict : List (String × Value) → String
  | [] => ""
  | [(k, v)] => "'" ++ k ++ "': " ++ pyRepr v
  | (k, v) :: rest => "'" ++ k ++ "': " ++ pyRepr v ++ ", " ++ pyReprDict rest
end

/-- Python `str` of a `Value`: the string itself for strings, `repr`
otherwise. -/
def pyStr : Value → String
  | .str s => s
  | v => pyRepr v

/-- The replacement function of `AIAgent._resolve_args`:
`str(self.values.get(name, ""))` — the stringified state value for
`name`, or the empty string when `name` is absent. -/
def lookupStr (values : PyDict) (name : String) : String :=
  match dictLookup values name with
  | some v => pyStr v
  | Option.none => ""

/-- State of the left-to-right scan that implements
`_VAR_PATTERN.sub` for the pattern `\$\{([^}]+)\}` (`ai_agent.py:65`):
outside any candidate match, just after a `$`, or inside `$\x7b...`
with the name characters read so far. -/
inductive ScanMode where
  | out : ScanMode
  | dollar : ScanMode
  | name (buf : List Char) : ScanMode

/-- Left-to-right single-pass substitution of the regex
`\$\{([^}]+)\}` in a character list: each occurrence of `$\x7bname\x7d`
(with a non-empty brace-free name) is replaced by `lookup name`;
everything else, including unterminated or empty `$\x7b\x7d` candidates,
is copied verbatim, exactly as `re.sub` does.  Replaced text is emitted,
never rescanned. -/
def scanSub (lookup : String → String) : ScanMode → List Char → List Char
  | .out, [] => []
  | .out, c :: rest =>
    if c = '$' then scanSub lookup .dollar rest
    else c :: scanSub lookup .out rest
  | .dollar, [] => ['$']
  | .dollar, c :: rest =>
    if c = '\x7b' then scanSub lookup (.name []) rest
    else if c = '$' then '$' :: scanSub lookup .dollar rest
    else '$' :: c :: scanSub lookup .out rest
  | .name buf, [] => '$' :: '\x7b' :: buf
  | .name buf, c :: rest =>
    if c = '\x7d' then
      if buf = [] then '$' :: '\x7b' :: '\x7d' :: scanSub lookup .out rest
      else (lookup (String.mk buf)).data ++ scanSub lookup .out rest
    else scanSub lookup (.name (buf ++ [c])) rest

/-- `_VAR_PATTERN.sub(lambda m: str(self.values.get(m.group(1), "")), s)`
as performed on each string by `AIAgent._resolve_args`. -/
def substitute (values : PyDict) (s : String) : String :=
  String.mk (scanSub (lookupStr values) .out s.data)

/-- A segment of a template string: a literal character or a
placeholder occurrence.  Spec-side notion used to state that
substitution is one structural pass. -/
inductive Segment where
  | lit (c : Char) : Segment
  | hole (name : String) : Segment

/-- Spec-side segmentation of a template string: splits it into literal
characters and `$\x7bname\x7d` placeholder occurrences.  Defined without
reference to the accumulated state, witnessing that which text is a
placeholder does not depend on the values substituted. -/
def parseSegs : ScanMode → List Char → List Segment
  | .out, [] => []
  | .out, c :: rest =>
    if c = '$' then parseSegs .dollar rest
    else .lit c :: parseSegs .out rest
  | .dollar, [] => [.lit '$']
  | .dollar, c :: rest =>
    if c = '\x7b' then parseSegs (.name []) rest
    else if c = '$' then .lit '$' :: parseSegs .dollar rest
    else .lit '$' :: .lit c :: parseSegs .out rest
  | .name buf, [] => .lit '$' :: .lit '\x7b' :: buf.map .lit
  | .name buf, c :: rest =>
    if c = '\x7d' then
      if buf = [] then .lit '$' :: .lit '\x7b' :: .lit '\x7d' :: parseSegs .out rest
      else .hole (String.mk buf) :: parseSegs .out rest
    else parseSegs (.name (buf ++ [c])) rest

/-- Spec-side rendering of a segmentation: literals unchanged, each
placeholder replaced (once) by the lookup result. -/
def renderSegs (lookup : String → String) : List Segment → List Char
  | [] => []
  | .lit c :: rest => c :: renderSegs lookup rest
  | .hole n :: rest => (lookup n).data ++ renderSegs lookup rest

/-- Source dataclass `Option` (the spec's "Choice"): a selectable value
with label, payload and rationale.  Renamed here because `Option` is
taken by Lean's option type. -/
structure Choice where
  label : String
  value : Value
  rationale : String := ""

/-- Source dataclass `Variable`: a named input slot. -/
structure Variable where
  name : String
  type : String := "text"
  prompt : String := ""
  required : Bool := true
  default : Value := .none
  options : List Choice := []
  validate_regex : Option String := Option.none

/-- Source dataclass `Step`: one instruction of a protocol. -/
structure Step where
  kind : String
  ref : Option String := Option.none
  text : String := ""
  call : Option String := Option.none
  args : PyDict := []

/-- Source dataclass `Protocol` (the spec's "Document"). -/
structure Protocol where
  id : String
  title : String
  version : String
  description : String := ""
  «variables» : List (String × Variable) := []
  steps : List Step := []
  metadata : PyDict := []

/-- One file of a protocol directory, abstracted past YAML parsing: its
file name and the `Protocol` that `load_protocol_file` yields for it. -/
structure PFile where
  name : String
  proto : Protocol

/-- Lexicographic strict order on character lists by code point — how
Python compares the strings `sorted` orders paths by. -/
def charListLt : List Char → List Char → Bool
  | [], [] => false
  | [], _ :: _ => true
  | _ :: _, [] => false
  | a :: as, b :: bs =>
    if a.toNat < b.toNat then true
    else if a.toNat = b.toNat then charListLt as bs
    else false

/-- `a < b` on paths (Python string comparison, by code point). -/
def pathLt (a b : String) : Bool := charListLt a.data b.data

/-- `a <= b` on paths. -/
def pathLe (a b : String) : Bool := a = b || pathLt a b

/-- `pat` is a suffix of `s` (`str.endswith` / what `glob("*.ext")`
selects on). -/
def strEndsWith (s pat : String) : Bool :=
  pat.data.reverse.isPrefixOf s.data.reverse

/-- Stable insertion into a name-sorted list (helper for `sortByName`). -/
def insertByName (f : PFile) : List PFile → List PFile
  | [] => [f]
  | g :: rest =>
    if pathLe f.name g.name then f :: g :: rest else g :: insertByName f rest

/-- Python `sorted` by file name (stable, ascending). -/
def sortByName : List PFile → List PFile
  | [] => []
  | f :: rest => insertByName f (sortByName rest)

/-- The order in which `load_protocols` processes a directory:
`sorted(directory.glob("*.yml")) + sorted(directory.glob("*.yaml"))` —
all `.yml` files in sorted order, then all `.yaml` files in sorted
order (`ai_agent.py:160`). -/
def processOrder (files : List PFile) : List PFile :=
  sortByName (files.filter (fun f => strEndsWith f.name ".yml"))
    ++ sortByName (files.filter (fun f => strEndsWith f.name ".yaml"))

/-- `load_protocols(directory)`: loads every `.yml`/`.yaml` file of the
directory (modelled as a listing of already-parsed files) and keys the
resulting dict by each protocol's id, later assignments shadowing
earlier ones. -/
def load_protocols (files : List PFile) : List (String × Protocol) :=
  (processOrder files).foldl (fun acc f => dictInsert acc f.proto.id f.proto) []

/-- Spec-side description of dict collision: the protocol of the last
file in the given order whose id matches, if any. -/
def lastWins : List PFile → String → Option Protocol
  | [], _ => Option.none
  | f :: rest, i =>
    match lastWins rest i with
    | some p => some p
    | Option.none => if f.proto.id = i then some f.proto else Option.none

/-- A Python exception outcome, as far as `_execute_call`'s handlers
can distinguish them: a `TypeError` or any other exception, each with
its message. -/
inductive PyExc where
  | typeError (msg : String) : PyExc
  | other (msg : String) : PyExc

/-- Outcome of `fn(**args)` on a callable member: a returned value, a
`TypeError` raised at argument binding (shape mismatch — wrong
names/arity), or an exception raised by the operation's own body. -/
inductive InvokeOutcome where
  | ok (v : Value) : InvokeOutcome
  | bindError (msg : String) : InvokeOutcome
  | raised (e : PyExc) : InvokeOutcome

/-- A module member as `_execute_call` probes it: whether it is
callable, and what invoking it with given keyword arguments does. -/
structure Member where
  callable : Bool
  invoke : PyDict → InvokeOutcome

/-- A Python module: its attribute table (`hasattr`/`getattr`). -/
structure PyModule where
  members : String → Option Member

/-- The import machinery `importlib.import_module` as `_execute_call`
sees it: a module path either loads to a module or fails with an
exception message. -/
structure CallEnv where
  importMod : String → Except String PyModule

/-- `call_path.rsplit(".", 1)`: split at the last dot, `Option.none`
when the path contains no dot (Python raises `ValueError` there). -/
def rsplitDot (s : String) : Option (String × String) :=
  if '.' ∈ s.data then
    some (String.mk ((s.data.reverse.dropWhile (· ≠ '.')).drop 1).reverse,
          String.mk (s.data.reverse.takeWhile (· ≠ '.')).reverse)
  else Option.none

/-- The errors `AIAgent` raises, by kind and payload (the data its
f-string messages carry). -/
inductive AgentError where
  | missingAskRef (stepIdx : Nat) : AgentError
  | varNotDefined (ref : String) : AgentError
  | valueRequired (name : String) : AgentError
  | missingCallTarget (stepIdx : Nat) : AgentError
  | unknownKind (stepIdx : Nat) (kind : String) : AgentError
  | invalidCallTarget (stepIdx : Nat) (callPath : String) : AgentError
  | importFailed (stepIdx : Nat) (modPath : String) (msg : String) : AgentError
  | attributeNotFound (stepIdx : Nat) (modPath : String) (funcName : String) : AgentError
  | notCallable (stepIdx : Nat) (modPath : String) (funcName : String) : AgentError
  | badArguments (stepIdx : Nat) (callPath : String) (msg : String) : AgentError
  | operationFailed (stepIdx : Nat) (callPath : String) (msg : String) : AgentError
deriving DecidableEq, Repr

/-- `AIAgent._execute_call` (`ai_agent.py:277`): split the dotted call
path, import the module, fetch and check the member, invoke it, and
classify every failure.  Note both a binding `TypeError` and a
`TypeError` raised inside the operation land in the same
`except TypeError` handler. -/
def _execute_call (env : CallEnv) (stepIdx : Nat) (callPath : String)
    (args : PyDict) : Except AgentError Value :=
  match rsplitDot callPath with
  | Option.none => .error (.invalidCallTarget stepIdx callPath)
  | some (modPath, funcName) =>
    match env.importMod modPath with
    | .error msg => .error (.importFailed stepIdx modPath msg)
    | .ok mod =>
      match mod.members funcName with
      | Option.none => .error (.attributeNotFound stepIdx modPath funcName)
      | some mem =>
        if mem.callable then
          match mem.invoke args with
          | .ok v => .ok v
          | .bindError msg => .error (.badArguments stepIdx callPath msg)
          | .raised (.typeError msg) => .error (.badArguments stepIdx callPath msg)
          | .raised (.other msg) => .error (.operationFailed stepIdx callPath msg)
        else .error (.notCallable stepIdx modPath funcName)

/-- The UI bridge operations whose return values feed back into the
engine (`ask`, `confirm`); `note` and `finalize` return `None` and are
recorded in the event trace instead. -/
structure Bridge where
  ask : Variable → Value
  confirm : String → Bool

/-- Observable side effects of a run: the bridge and resolver calls the
engine makes, in order. -/
inductive Event where
  | noted (msg : String) : Event
  | confirmed (msg : String) (result : Bool) : Event
  | called (target : String) (args : PyDict) (result : Value) : Event
  | finalized (values : PyDict) : Event

/-- `value in (None, "")` (`ai_agent.py:234`).  Structural equality
agrees with Python `==` here: no int/bool/list/dict compares equal to
`None` or to the empty string. -/
def isEmptyAbsent : Value → Bool
  | .none => true
  | .str s => s = ""
  | _ => false

/-- `(step.kind or "").lower().strip()` (`ai_agent.py:221`); `lower`
modelled on ASCII letters, `strip` drops surrounding whitespace. -/
def pyLowerStrip (s : String) : String :=
  String.mk ((((s.data.map Char.toLower).dropWhile Char.isWhitespace).reverse.dropWhile
    Char.isWhitespace).reverse)

mutual
/-- The inner `resolve` closure of `AIAgent._resolve_args`
(`ai_agent.py:266`): substitute placeholders in strings, recurse into
dict values and list items, pass every other value through. -/
def resolve (values : PyDict) : Value → Value
  | .str s => .str (substitute values s)
  | .dict d => .dict (resolveDict values d)
  | .list xs => .list (resolveList values xs)
  | v => v

/-- `resolve` mapped over the items of a list value. -/
def resolveList (values : PyDict) : List Value → List Value
  | [] => []
  | v :: rest => resolve values v :: resolveList values rest

/-- `resolve` mapped over the values of a dict value (keys untouched). -/
def resolveDict (values : PyDict) : List (String × Value) → List (String × Value)
  | [] => []
  | (k, v) :: rest => (k, resolve values v) :: resolveDict values rest
end

/-- `AIAgent._resolve_args` (`ai_agent.py:265`): resolve each top-level
argument value against the accumulated state. -/
def _resolve_args (values : PyDict) (args : PyDict) : PyDict :=
  match args with
  | [] => []
  | (k, v) :: rest => (k, resolve values v) :: _resolve_args values rest

/-- `AIAgent._run_step` (`ai_agent.py:220`): dispatch one step on its
lowercased, stripped kind, returning the updated accumulated state and
the emitted events, or the raised error. -/
def _run_step (ui : Bridge) (env : CallEnv) (vars : List (String × Variable))
    (values : PyDict) (stepIdx : Nat) (step : Step) :
    Except AgentError (PyDict × List Event) :=
  let kind := pyLowerStrip step.kind
  if kind = "say" ∨ kind = "note" then
    .ok (values, [.noted step.text])
  else if kind = "ask" then
    match step.ref with
    | Option.none => .error (.missingAskRef stepIdx)
    | some r =>
      if r = "" then .error (.missingAskRef stepIdx)
      else
        match dictLookup vars r with
        | Option.none => .error (.varNotDefined r)
        | some var =>
          let v0 := ui.ask var
          let v1 := if isEmptyAbsent v0 then var.default else v0
          if isEmptyAbsent v1 && var.required then
            .error (.valueRequired var.name)
          else if !isEmptyAbsent v1 then
            .ok (dictInsert values var.name v1, [])
          else
            .ok (values, [])
  else if kind = "confirm" then
    let message := if step.text = "" then "Confirm?" else step.text
    let result := ui.confirm message
    let key := match step.ref with
      | some r => if r = "" then "confirm_" ++ toString stepIdx else r
      | Option.none => "confirm_" ++ toString stepIdx
    .ok (dictInsert values key (.bool result), [.confirmed message result])
  else if kind = "call" then
    match step.call with
    | Option.none => .error (.missingCallTarget stepIdx)
    | some target =>
      if target = "" then .error (.missingCallTarget stepIdx)
      else
        let args := _resolve_args values step.args
        match _execute_call env stepIdx target args with
        | .error e => .error e
        | .ok result =>
          let values' := match step.ref with
            | some r => if r = "" then values else dictInsert values r result
            | Option.none => values
          .ok (values', [.called target args result])
  else if kind = "finalize" then
    .ok (values, [.finalized values])
  else
    .error (.unknownKind stepIdx step.kind)

/-- Outcome of (a suffix of) a run: the accumulated state, the events
emitted so far, and the error that aborted the run, if any. -/
structure RunResult where
  values : PyDict
  events : List Event
  error : Option AgentError

/-- The loop body of `AIAgent.start`: run the remaining steps in order
from the given state and 1-based index, stopping at the first error
(the state and events of the completed earlier steps persist). -/
def runStepsFrom (ui : Bridge) (env : CallEnv) (vars : List (String × Variable))
    (values : PyDict) (idx : Nat) : List Step → RunResult
  | [] => ⟨values, [], Option.none⟩
  | s :: rest =>
    match _run_step ui env vars values idx s with
    | .error e => ⟨values, [], some e⟩
    | .ok (v', evs) =>
      let r := runStepsFrom ui env vars v' (idx + 1) rest
      ⟨r.values, evs ++ r.events, r.error⟩

/-- `AIAgent.start` (`ai_agent.py:213`): clear the accumulated state
and execute the protocol's steps in order, 1-based. -/
def start (ui : Bridge) (env : CallEnv) (p : Protocol) : RunResult :=
  runStepsFrom ui env p.variables [] 1 p.steps

/-- The message a `confirm` step shows: `step.text or "Confirm?"`. -/
def confirmMessage (step : Step) : String :=
  if step.text = "" then "Confirm?" else step.text

/-- The key a `confirm` step records under:
`step.ref or f"confirm_\x7bstep_idx\x7d"`. -/
def confirmKey (step : Step) (idx : Nat) : String :=
  match step.ref with
  | some r => if r = "" then "confirm_" ++ toString idx else r
  | Option.none => "confirm_" ++ toString idx

/-! ## Concrete fixtures used by witnesses and counterexamples -/

/-- A call environment with one module `ops` whose callable `make`
returns the mapping `\x7b"a": 1, "b": 2\x7d`. -/
def envAB : CallEnv :=
  ⟨fun m =>
    if m = "ops" then
      .ok ⟨fun f =>
        if f = "make" then
          some ⟨true, fun _ => .ok (.dict [("a", .int 1), ("b", .int 2)])⟩
        else Option.none⟩
    else .error "No module named"⟩

/-- A call environment with one module `mod` whose callable `oper`
accepts its arguments but raises `TypeError("boom")` from its own
body. -/
def envTyErr : CallEnv :=
  ⟨fun m =>
    if m = "mod" then
      .ok ⟨fun f =>
        if f = "oper" then some ⟨true, fun _ => .raised (.typeError "boom")⟩
        else Option.none⟩
    else .error "No module named"⟩

/-- A protocol with id `X` as loaded from the file `a.yaml`. -/
def protoA : Protocol := { id := "X", title := "from-a-yaml", version := "1" }

/-- A protocol with the same id `X` as loaded from the file `b.yml`. -/
def protoB : Protocol := { id := "X", title := "from-b-yml", version := "1" }

/-- A presentation bridge whose `confirm` always declines. -/
def declineBridge : Bridge := ⟨fun _ => Value.none, fun _ => false⟩

/-- A call environment with one module `m` holding a non-callable
member `data`, a callable `badsig` that rejects its argument shape, and
a callable `fails` that raises a non-`TypeError` exception. -/
def envMix : CallEnv :=
  ⟨fun m =>
    if m = "m" then
      .ok ⟨fun f =>
        if f = "data" then some ⟨false, fun _ => .ok .none⟩
        else if f = "badsig" then
          some ⟨true, fun _ => .bindError "unexpected keyword"⟩
        else if f = "fails" then
          some ⟨true, fun _ => .raised (.other "disk full")⟩
        else Option.none⟩
    else .error "No module named"⟩

/-- A presentation bridge whose `ask` always reports an absent answer. -/
def absentBridge : Bridge := ⟨fun _ => Value.none, fun _ => true⟩

/-- A call environment in which no module resolves. -/
def trivialEnv : CallEnv := ⟨fun _ => .error "No module"⟩

/-- The spec's scenario Variable: named `tempo`, default `120`. -/
def tempoVar : Variable := { name := "tempo", default := .int 120 }

/-- A presentation bridge whose `ask` always answers the integer `0`. -/
def zeroBridge : Bridge := ⟨fun _ => Value.int 0, fun _ => true⟩

/-- A required Variable named `k` with default `7`. -/
def keyVar : Variable := { name := "k", default := .int 7 }

/-! ## Substitution lemmas -/

theorem renderSegs_map_lit (lookup : String → String) (l : List Char) :
    renderSegs lookup (l.map Segment.lit) = l := by
  induction l with
  | nil => rfl
  | cons c rest ih => simp [renderSegs, ih]

/-- The substitution scanner factors through the lookup-independent
segmentation: one structural pass, replacements never rescanned. -/
theorem scanSub_eq_renderSegs (lookup : String → String) :
    ∀ (cs : List Char) (mode : ScanMode),
      scanSub lookup mode cs = renderSegs lookup (parseSegs mode cs) := by
  intro cs
  induction cs with
  | nil =>
    intro mode
    cases mode with
    | out => rfl
    | dollar => rfl
    | name buf => simp [scanSub, parseSegs, renderSegs, renderSegs_map_lit]
  | cons c rest ih =>
    intro mode
    cases mode with
    | out =>
      by_cases h : c = '$' <;> simp [scanSub, parseSegs, renderSegs, h, ih]
    | dollar =>
      by_cases h1 : c = '\x7b'
      · simp [scanSub, parseSegs, h1, ih]
      · by_cases h2 : c = '$' <;>
          simp [scanSub, parseSegs, renderSegs, h1, h2, ih]
    | name buf =>
      by_cases h1 : c = '\x7d'
      · by_cases h2 : buf = [] <;>
          simp [scanSub, parseSegs, renderSegs, h1, h2, ih]
      · simp [scanSub, parseSegs, h1, ih]

theorem resolveList_eq_map (values : PyDict) (xs : List Value) :
    resolveList values xs = xs.map (resolve values) := by
  induction xs with
  | nil => rfl
  | cons v rest ih => simp [resolveList, ih]

theorem resolveDict_eq_map (values : PyDict) (d : List (String × Value)) :
    resolveDict values d = d.map (fun p => (p.1, resolve values p.2)) := by
  induction d with
  | nil => rfl
  | cons p rest ih => simp [resolveDict, ih]

theorem resolve_args_eq_map (values : PyDict) (args : PyDict) :
    _resolve_args values args = args.map (fun p => (p.1, resolve values p.2)) := by
  induction args with
  | nil => rfl
  | cons p rest ih => simp [_resolve_args, ih]

/-- C3: in an operation-invocation step's argument mapping, every
string value — at any nesting depth inside dicts and lists — has each
`$\x7bname\x7d` occurrence replaced by the stringified accumulated-state
value for `name` (empty string when absent), in one left-to-right
structural pass whose segmentation is independent of the state (no
recursive re-substitution, no failure); non-string leaves pass through
unchanged.  In particular `args = \x7b"base": "$\x7btempo\x7d"\x7d`
with `tempo = 120` resolves to the string `"120"`. -/
theorem C3_args_template_substitution (values : PyDict) :
    (∀ args : PyDict, _resolve_args values args
        = args.map (fun p => (p.1, resolve values p.2))) ∧
    (∀ s : String, resolve values (.str s)
        = .str (String.mk (renderSegs (lookupStr values) (parseSegs .out s.data)))) ∧
    (∀ xs : List Value, resolve values (.list xs) = .list (xs.map (resolve values))) ∧
    (∀ d : List (String × Value), resolve values (.dict d)
        = .dict (d.map (fun p => (p.1, resolve values p.2)))) ∧
    (∀ n : Int, resolve values (.int n) = .int n) ∧
    (∀ b : Bool, resolve values (.bool b) = .bool b) ∧
    (resolve values .none = .none) ∧
    _resolve_args [("tempo", .int 120)] [("base", .str "${tempo}")]
      = [("base", .str "120")] := by
  refine ⟨resolve_args_eq_map values, ?_, ?_, ?_, ?_, ?_, ?_, rfl⟩
  · intro s
    simp [resolve, substitute, scanSub_eq_renderSegs]
  · intro xs
    simp [resolve, resolveList_eq_map]
  · intro d
    simp [resolve, resolveDict_eq_map]
  · intro n; rfl
  · intro b; rfl
  · rfl

/-! ## Ask-step semantics -/

theorem isEmptyAbsent_false_of_ne (v : Value)
    (h1 : v ≠ .none) (h2 : v ≠ .str "") : isEmptyAbsent v = false := by
  cases v with
  | none => exact absurd rfl h1
  | str s =>
    have hs : s ≠ "" := fun e => h2 (by rw [e])
    simp [isEmptyAbsent, hs]
  | bool b => rfl
  | int n => rfl
  | list xs => rfl
  | dict d => rfl

/-- C2: an `ask` step whose ref names a declared Variable calls the
bridge's `ask` with that Variable; an empty/absent answer is replaced
by the Variable's default; if the result is still empty/absent and the
Variable is required the step fails with a value-required error naming
the Variable; a non-empty result is stored under the Variable's name;
and an empty/absent result for a non-required Variable leaves the
accumulated state unchanged (the key stays absent). -/
theorem C2_ask_default_required_store (ui : Bridge) (env : CallEnv)
    (vars : List (String × Variable)) (values : PyDict) (idx : Nat)
    (step : Step) (r : String) (var : Variable)
    (hk : pyLowerStrip step.kind = "ask")
    (href : step.ref = some r) (hr : r ≠ "")
    (hvar : dictLookup vars r = some var) :
    (isEmptyAbsent (if isEmptyAbsent (ui.ask var) then var.default else ui.ask var) = true →
       var.required = true →
       _run_step ui env vars values idx step = .error (.valueRequired var.name)) ∧
    (isEmptyAbsent (if isEmptyAbsent (ui.ask var) then var.default else ui.ask var) = false →
       _run_step ui env vars values idx step
         = .ok (dictInsert values var.name
             (if isEmptyAbsent (ui.ask var) then var.default else ui.ask var), [])) ∧
    (isEmptyAbsent (if isEmptyAbsent (ui.ask var) then var.default else ui.ask var) = true →
       var.required = false →
       _run_step ui env vars values idx step = .ok (values, [])) := by
  refine ⟨?_, ?_, ?_⟩
  · intro h1 h2
    simp [_run_step, hk, href, hr, hvar, h1, h2]
  · intro h1
    simp [_run_step, hk, href, hr, hvar, h1]
  · intro h1 h2
    simp [_run_step, hk, href, hr, hvar, h1, h2]

/-- Witness for C2: asking `tempo` (default 120) against a bridge whose
`ask` returns absent stores `tempo = 120`. -/
theorem C2_ask_default_required_store_witness :
    _run_step absentBridge trivialEnv [("tempo", tempoVar)] [] 1
      { kind := "ask", ref := some "tempo" }
      = .ok ([("tempo", Value.int 120)], []) := by
  have h := C2_ask_default_required_store absentBridge trivialEnv
    [("tempo", tempoVar)] [] 1 { kind := "ask", ref := some "tempo" }
    "tempo" tempoVar rfl rfl (by decide) rfl
  exact h.2.1 rfl

/-- C10: in an `ask` step only `None` and the empty string count as
empty/absent — any other answer (including the falsy `0` and `False`)
is stored unchanged under the Variable's name, the default is not
substituted, and the required-value failure does not occur. -/
theorem C10_ask_falsy_values_stored (ui : Bridge) (env : CallEnv)
    (vars : List (String × Variable)) (values : PyDict) (idx : Nat)
    (step : Step) (r : String) (var : Variable)
    (hk : pyLowerStrip step.kind = "ask")
    (href : step.ref = some r) (hr : r ≠ "")
    (hvar : dictLookup vars r = some var)
    (h1 : ui.ask var ≠ .none) (h2 : ui.ask var ≠ .str "") :
    _run_step ui env vars values idx step
      = .ok (dictInsert values var.name (ui.ask var), []) := by
  have he : isEmptyAbsent (ui.ask var) = false :=
    isEmptyAbsent_false_of_ne (ui.ask var) h1 h2
  simp [_run_step, hk, href, hr, hvar, he]

/-- Witness for C10: the falsy answer `0` is stored as-is; the default
`7` is not substituted. -/
theorem C10_ask_falsy_values_stored_witness :
    _run_step zeroBridge trivialEnv [("k", keyVar)] [] 1
      { kind := "ask", ref := some "k" }
      = .ok ([("k", Value.int 0)], []) := by
  exact C10_ask_falsy_values_stored zeroBridge trivialEnv [("k", keyVar)] [] 1
    { kind := "ask", ref := some "k" } "k" keyVar rfl rfl (by decide) rfl
    (fun h => Value.noConfusion h) (fun h => Value.noConfusion h)

/-! ## Confirm-step semantics -/

/-- C8: a `confirm` step uses the generic `"Confirm?"` prompt when the
step supplies no text, always records the bridge's boolean result —
under the step's declared ref when present, else under the synthesized
`confirm_<index>` key — and never fails: execution proceeds to the
following steps even when the result is `false`. -/
theorem C8_confirm_always_recorded (ui : Bridge) (env : CallEnv)
    (vars : List (String × Variable)) (values : PyDict) (idx : Nat)
    (step : Step) (hk : pyLowerStrip step.kind = "confirm") :
    _run_step ui env vars values idx step
      = .ok (dictInsert values (confirmKey step idx)
               (.bool (ui.confirm (confirmMessage step))),
             [.confirmed (confirmMessage step) (ui.confirm (confirmMessage step))]) ∧
    ∀ rest : List Step,
      runStepsFrom ui env vars values idx (step :: rest)
        = { values := (runStepsFrom ui env vars
              (dictInsert values (confirmKey step idx)
                (.bool (ui.confirm (confirmMessage step)))) (idx + 1) rest).values,
            events := .confirmed (confirmMessage step) (ui.confirm (confirmMessage step))
              :: (runStepsFrom ui env vars
                    (dictInsert values (confirmKey step idx)
                      (.bool (ui.confirm (confirmMessage step)))) (idx + 1) rest).events,
            error := (runStepsFrom ui env vars
              (dictInsert values (confirmKey step idx)
                (.bool (ui.confirm (confirmMessage step)))) (idx + 1) rest).error } := by
  have h1 : _run_step ui env vars values idx step
      = .ok (dictInsert values (confirmKey step idx)
               (.bool (ui.confirm (confirmMessage step))),
             [.confirmed (confirmMessage step) (ui.confirm (confirmMessage step))]) := by
    cases href : step.ref with
    | none => simp [_run_step, hk, confirmKey, confirmMessage, href]
    | some r => simp [_run_step, hk, confirmKey, confirmMessage, href]
  refine ⟨h1, ?_⟩
  intro rest
  simp [runStepsFrom, h1]

/-- Witness for C8: a declined (`false`) confirmation with no ref is
recorded under `confirm_1` and the run carries on to the next step. -/
theorem C8_confirm_always_recorded_witness :
    runStepsFrom declineBridge trivialEnv [] [] 1
      [{ kind := "confirm" }, { kind := "note", text := "next" }]
      = ⟨[("confirm_1", Value.bool false)],
         [.confirmed "Confirm?" false, .noted "next"], Option.none⟩ := by
  have h := (C8_confirm_always_recorded declineBridge trivialEnv [] [] 1
    { kind := "confirm" } rfl).2 [{ kind := "note", text := "next" }]
  rw [h]
  rfl

/-! ## Dispatch vocabulary -/

/-- C6: the engine dispatches operation invocation only under the
(lowercased, stripped) kind tag `"call"`: a step whose kind is the
literal `"invoke"` falls through to the unknown-kind error, and any
step whose kind tag is not `"call"` runs identically under any call
environment — it never reaches the resolver. -/
theorem C6_invoke_is_not_dispatched (ui : Bridge)
    (vars : List (String × Variable)) (values : PyDict) (idx : Nat) :
    (∀ (env : CallEnv) (step : Step), step.kind = "invoke" →
       _run_step ui env vars values idx step = .error (.unknownKind idx "invoke")) ∧
    (∀ (env env2 : CallEnv) (step : Step), pyLowerStrip step.kind ≠ "call" →
       _run_step ui env vars values idx step = _run_step ui env2 vars values idx step) := by
  constructor
  · intro env step h
    simp [_run_step, h, show pyLowerStrip "invoke" = "invoke" from rfl]
  · intro env env2 step h
    simp only [_run_step]
    split_ifs <;> rfl

/-- Witness for C6: a literal `"invoke"` step fails with the
unknown-kind error, and a `confirm` step is call-environment
independent. -/
theorem C6_invoke_is_not_dispatched_witness :
    _run_step absentBridge trivialEnv [] [] 1
      { kind := "invoke", call := some "ops.make" }
      = .error (.unknownKind 1 "invoke") ∧
    _run_step absentBridge trivialEnv [] [] 1 { kind := "confirm" }
      = _run_step absentBridge envAB [] [] 1 { kind := "confirm" } :=
  ⟨(C6_invoke_is_not_dispatched absentBridge [] [] 1).1 trivialEnv
      { kind := "invoke", call := some "ops.make" } rfl,
   (C6_invoke_is_not_dispatched absentBridge [] [] 1).2 trivialEnv envAB
      { kind := "confirm" } (by decide)⟩

/-! ## Call-step result handling -/

/-- C1 (amended): a successful operation-invocation (`call`) step with a
non-empty declared result reference stores exactly the call's return
value under that reference, as that single new entry; a structured
mapping returned by the call is never merged entry-by-entry into the
accumulated state, and a step with no (or an empty) ref leaves the
accumulated state entirely unchanged, whatever the call returned. -/
theorem C1_call_result_not_merged (ui : Bridge) (env : CallEnv)
    (vars : List (String × Variable)) (values : PyDict) (idx : Nat)
    (step : Step) (out : PyDict × List Event)
    (hk : pyLowerStrip step.kind = "call")
    (h : _run_step ui env vars values idx step = .ok out) :
    ((step.ref = Option.none ∨ step.ref = some "") → out.1 = values) ∧
    (∀ r, step.ref = some r → r ≠ "" →
       ∃ target res, step.call = some target ∧
         _execute_call env idx target (_resolve_args values step.args) = .ok res ∧
         out.1 = dictInsert values r res) := by
  simp [_run_step, hk] at h
  rcases hc : step.call with _ | target
  · rw [hc] at h
    exact absurd h (by simp)
  · rw [hc] at h
    by_cases ht : target = ""
    · simp [ht] at h
    · simp only [ht, if_false] at h
      rcases he : _execute_call env idx target (_resolve_args values step.args)
        with e | result
      · rw [he] at h
        exact absurd h (by simp)
      · rw [he] at h
        simp only [] at h
        injection h with h2
        constructor
        · intro h0
          rcases h0 with h0 | h0 <;> rw [← h2] <;> simp [h0]
        · intro r hr hne
          refine ⟨target, result, rfl, he, ?_⟩
          rw [← h2]
          simp [hr, hne]

/-- Witness for C1: a no-ref `call` step whose target returns the
mapping `\x7b"a": 1, "b": 2\x7d` leaves the accumulated state exactly as
it was, and the same call with ref `out` stores exactly that returned
mapping as the single entry `out`. -/
theorem C1_call_result_not_merged_witness :
    (_run_step absentBridge envAB [] [] 1 { kind := "call", call := some "ops.make" }
      = .ok ([], [.called "ops.make" []
          (.dict [("a", Value.int 1), ("b", Value.int 2)])])) ∧
    (([] : PyDict), [Event.called "ops.make" []
        (Value.dict [("a", Value.int 1), ("b", Value.int 2)])]).1 = ([] : PyDict) ∧
    (_run_step absentBridge envAB [] [] 1
        { kind := "call", ref := some "out", call := some "ops.make" }
      = .ok ([("out", Value.dict [("a", Value.int 1), ("b", Value.int 2)])],
             [.called "ops.make" []
               (.dict [("a", Value.int 1), ("b", Value.int 2)])])) ∧
    (∃ target res,
       (({ kind := "call", ref := some "out", call := some "ops.make" } : Step)).call
         = some target ∧
       _execute_call envAB 1 target
         (_resolve_args []
           (({ kind := "call", ref := some "out", call := some "ops.make" } : Step)).args)
         = .ok res ∧
       (([("out", Value.dict [("a", Value.int 1), ("b", Value.int 2)])] : PyDict),
         [Event.called "ops.make" []
           (Value.dict [("a", Value.int 1), ("b", Value.int 2)])]).1
         = dictInsert [] "out" res) := by
  have hrun : _run_step absentBridge envAB [] [] 1
      { kind := "call", call := some "ops.make" }
      = .ok (([] : PyDict), [Event.called "ops.make" []
          (Value.dict [("a", Value.int 1), ("b", Value.int 2)])]) := rfl
  have hrun2 : _run_step absentBridge envAB [] [] 1
      { kind := "call", ref := some "out", call := some "ops.make" }
      = .ok (([("out", Value.dict [("a", Value.int 1), ("b", Value.int 2)])] : PyDict),
             [Event.called "ops.make" []
               (Value.dict [("a", Value.int 1), ("b", Value.int 2)])]) := rfl
  exact ⟨hrun,
    (C1_call_result_not_merged absentBridge envAB [] [] 1
      { kind := "call", call := some "ops.make" } _ rfl hrun).1 (Or.inl rfl),
    hrun2,
    (C1_call_result_not_merged absentBridge envAB [] [] 1
      { kind := "call", ref := some "out", call := some "ops.make" } _ rfl hrun2).2
      "out" rfl (by decide)⟩

/-- Counterexample for C1 as stated: after the run consisting of the
single no-ref `call` step whose target returned
`\x7b"a": 1, "b": 2\x7d`, neither `a` nor `b` is present in the
accumulated state (the claim requires both to be present). -/
theorem C1_merge_counterexample :
    start absentBridge envAB
        { id := "p", title := "p", version := "1.0",
          steps := [{ kind := "call", call := some "ops.make" }] }
      = ⟨[], [.called "ops.make" []
            (.dict [("a", Value.int 1), ("b", Value.int 2)])], Option.none⟩ ∧
    dictLookup (start absentBridge envAB
        { id := "p", title := "p", version := "1.0",
          steps := [{ kind := "call", call := some "ops.make" }] }).values "a"
      = Option.none ∧
    dictLookup (start absentBridge envAB
        { id := "p", title := "p", version := "1.0",
          steps := [{ kind := "call", call := some "ops.make" }] }).values "b"
      = Option.none := ⟨rfl, rfl, rfl⟩

/-! ## Resolver error taxonomy -/

/-- C4 (amended): the Operation Resolver classifies failures, each with
the step's position: no-separator reference → invalid-reference;
unloadable module → import error wrapping the cause; missing member →
attribute-not-found; non-invocable member → not-callable; a `TypeError`
from the invocation — whether an argument-shape mismatch at binding or
a `TypeError` raised by the operation's own body, which the engine
cannot tell apart — → bad-arguments; any non-`TypeError` exception
raised by the operation → generic operation-failed preserving the
message. -/
theorem C4_resolver_error_taxonomy (env : CallEnv) (idx : Nat)
    (callPath : String) (args : PyDict) :
    (rsplitDot callPath = Option.none →
       _execute_call env idx callPath args
         = .error (.invalidCallTarget idx callPath)) ∧
    (∀ mp fn, rsplitDot callPath = some (mp, fn) →
      (∀ msg, env.importMod mp = .error msg →
         _execute_call env idx callPath args
           = .error (.importFailed idx mp msg)) ∧
      (∀ pymod, env.importMod mp = .ok pymod →
        (pymod.members fn = Option.none →
           _execute_call env idx callPath args
             = .error (.attributeNotFound idx mp fn)) ∧
        (∀ mem, pymod.members fn = some mem →
          (mem.callable = false →
             _execute_call env idx callPath args
               = .error (.notCallable idx mp fn)) ∧
          (mem.callable = true →
            (∀ v, mem.invoke args = .ok v →
               _execute_call env idx callPath args = .ok v) ∧
            (∀ msg, mem.invoke args = .bindError msg →
               _execute_call env idx callPath args
                 = .error (.badArguments idx callPath msg)) ∧
            (∀ msg, mem.invoke args = .raised (.typeError msg) →
               _execute_call env idx callPath args
                 = .error (.badArguments idx callPath msg)) ∧
            (∀ msg, mem.invoke args = .raised (.other msg) →
               _execute_call env idx callPath args
                 = .error (.operationFailed idx callPath msg)))))) := by
  refine ⟨fun h0 => by simp [_execute_call, h0], ?_⟩
  intro mp fn hsplit
  refine ⟨fun msg himp => by simp [_execute_call, hsplit, himp], ?_⟩
  intro pymod himp
  refine ⟨fun hmem => by simp [_execute_call, hsplit, himp, hmem], ?_⟩
  intro mem hmem
  refine ⟨fun hnc => by simp [_execute_call, hsplit, himp, hmem, hnc], ?_⟩
  intro hc
  exact ⟨fun v hv => by simp [_execute_call, hsplit, himp, hmem, hc, hv],
    fun msg hv => by simp [_execute_call, hsplit, himp, hmem, hc, hv],
    fun msg hv => by simp [_execute_call, hsplit, himp, hmem, hc, hv],
    fun msg hv => by simp [_execute_call, hsplit, himp, hmem, hc, hv]⟩

/-- Witness for C4 (amended), covering each classification branch on
concrete environments. -/
theorem C4_resolver_error_taxonomy_witness :
    _execute_call trivialEnv 1 "nodots" [] = .error (.invalidCallTarget 1 "nodots") ∧
    _execute_call trivialEnv 1 "a.b" [] = .error (.importFailed 1 "a" "No module") ∧
    _execute_call envAB 1 "ops.missing" [] = .error (.attributeNotFound 1 "ops" "missing") ∧
    _execute_call envMix 1 "m.data" [] = .error (.notCallable 1 "m" "data") ∧
    _execute_call envAB 1 "ops.make" []
      = .ok (.dict [("a", Value.int 1), ("b", Value.int 2)]) ∧
    _execute_call envMix 1 "m.badsig" []
      = .error (.badArguments 1 "m.badsig" "unexpected keyword") ∧
    _execute_call envMix 1 "m.fails" []
      = .error (.operationFailed 1 "m.fails" "disk full") := by
  refine ⟨?_, ?_, ?_, ?_, ?_, ?_, ?_⟩
  · exact (C4_resolver_error_taxonomy trivialEnv 1 "nodots" []).1 rfl
  · exact ((C4_resolver_error_taxonomy trivialEnv 1 "a.b" []).2 "a" "b" rfl).1
      "No module" rfl
  · exact (((C4_resolver_error_taxonomy envAB 1 "ops.missing" []).2 "ops" "missing"
      rfl).2 _ rfl).1 rfl
  · exact ((((C4_resolver_error_taxonomy envMix 1 "m.data" []).2 "m" "data"
      rfl).2 _ rfl).2 _ rfl).1 rfl
  · exact (((((C4_resolver_error_taxonomy envAB 1 "ops.make" []).2 "ops" "make"
      rfl).2 _ rfl).2 _ rfl).2 rfl).1 _ rfl
  · exact (((((C4_resolver_error_taxonomy envMix 1 "m.badsig" []).2 "m" "badsig"
      rfl).2 _ rfl).2 _ rfl).2 rfl).2.1 _ rfl
  · exact (((((C4_resolver_error_taxonomy envMix 1 "m.fails" []).2 "m" "fails"
      rfl).2 _ rfl).2 _ rfl).2 rfl).2.2.2 _ rfl

/-- Counterexample for C4 as stated: the operation `mod.oper` raises a
`TypeError` from its own body (not an argument-shape mismatch), yet the
engine reports the bad-arguments error, not the generic
operation-failed one the claim requires. -/
theorem C4_typeerror_counterexample :
    _execute_call envTyErr 1 "mod.oper" []
      = .error (.badArguments 1 "mod.oper" "boom") ∧
    ¬ _execute_call envTyErr 1 "mod.oper" []
        = .error (.operationFailed 1 "mod.oper" "boom") := by
  refine ⟨rfl, ?_⟩
  intro h
  rw [show _execute_call envTyErr 1 "mod.oper" []
      = Except.error (AgentError.badArguments 1 "mod.oper" "boom") from rfl] at h
  simp at h

/-! ## Run sequencing -/

/-- A step whose (lowercased, stripped) kind is outside the recognized
vocabulary fails with the unknown-kind error carrying the step's
position and its literal kind string. -/
theorem run_step_unknownKind (ui : Bridge) (env : CallEnv)
    (vars : List (String × Variable)) (values : PyDict) (idx : Nat) (step : Step)
    (h : pyLowerStrip step.kind
      ∉ (["say", "note", "ask", "confirm", "call", "finalize"] : List String)) :
    _run_step ui env vars values idx step = .error (.unknownKind idx step.kind) := by
  simp only [List.mem_cons, List.not_mem_nil, or_false] at h
  push_neg at h
  obtain ⟨h1, h2, h3, h4, h5, h6⟩ := h
  simp [_run_step, h1, h2, h3, h4, h5, h6]

/-- Unfolding equation: a run whose first step succeeds continues with
the returned state, accumulating the step's events. -/
theorem runStepsFrom_cons_ok (ui : Bridge) (env : CallEnv)
    (vars : List (String × Variable)) (values v' : PyDict) (evs : List Event)
    (idx : Nat) (s : Step) (l : List Step)
    (hs : _run_step ui env vars values idx s = .ok (v', evs)) :
    runStepsFrom ui env vars values idx (s :: l)
      = ⟨(runStepsFrom ui env vars v' (idx + 1) l).values,
         evs ++ (runStepsFrom ui env vars v' (idx + 1) l).events,
         (runStepsFrom ui env vars v' (idx + 1) l).error⟩ := by
  simp [runStepsFrom, hs]

/-- Unfolding equation: a run whose first step fails stops there,
keeping the state reached so far. -/
theorem runStepsFrom_cons_error (ui : Bridge) (env : CallEnv)
    (vars : List (String × Variable)) (values : PyDict) (e : AgentError)
    (idx : Nat) (s : Step) (l : List Step)
    (hs : _run_step ui env vars values idx s = .error e) :
    runStepsFrom ui env vars values idx (s :: l) = ⟨values, [], some e⟩ := by
  simp [runStepsFrom, hs]

/-- Running a concatenation whose first part completes without error
continues into the second part with the accumulated state and the next
step index; states, events and the final error compose. -/
theorem runStepsFrom_append (ui : Bridge) (env : CallEnv)
    (vars : List (String × Variable)) :
    ∀ (xs ys : List Step) (values : PyDict) (idx : Nat),
      (runStepsFrom ui env vars values idx xs).error = Option.none →
      runStepsFrom ui env vars values idx (xs ++ ys)
        = ⟨(runStepsFrom ui env vars (runStepsFrom ui env vars values idx xs).values
              (idx + xs.length) ys).values,
           (runStepsFrom ui env vars values idx xs).events
             ++ (runStepsFrom ui env vars (runStepsFrom ui env vars values idx xs).values
                   (idx + xs.length) ys).events,
           (runStepsFrom ui env vars (runStepsFrom ui env vars values idx xs).values
              (idx + xs.length) ys).error⟩ := by
  intro xs
  induction xs with
  | nil =>
    intro ys values idx h
    simp [runStepsFrom]
  | cons s rest ih =>
    intro ys values idx h
    rcases hs : _run_step ui env vars values idx s with e | ⟨v', evs⟩
    · rw [runStepsFrom_cons_error ui env vars values e idx s rest hs] at h
      exact absurd h (by simp)
    · rw [List.cons_append,
        runStepsFrom_cons_ok ui env vars values v' evs idx s (rest ++ ys) hs,
        runStepsFrom_cons_ok ui env vars values v' evs idx s rest hs] at *
      simp only [] at h
      rw [ih ys v' (idx + 1) h]
      have hidx : idx + 1 + rest.length = idx + (rest.length + 1) := by omega
      simp [hidx, List.append_assoc]

/-- C5: when the step at 1-based position `k` has an unrecognized kind
and the steps before it complete, the run performs steps `1..k-1` in
full (their recorded answers and emitted events persist), then stops
with an error carrying position `k` and the literal kind string; no
later step contributes anything. -/
theorem C5_unknown_kind_fails_at_position (ui : Bridge) (env : CallEnv)
    (doc : Protocol) (pre post : List Step) (bad : Step)
    (hsteps : doc.steps = pre ++ bad :: post)
    (hbad : pyLowerStrip bad.kind
      ∉ (["say", "note", "ask", "confirm", "call", "finalize"] : List String))
    (hpre : (runStepsFrom ui env doc.variables [] 1 pre).error = Option.none) :
    start ui env doc
      = ⟨(runStepsFrom ui env doc.variables [] 1 pre).values,
         (runStepsFrom ui env doc.variables [] 1 pre).events,
         some (.unknownKind (pre.length + 1) bad.kind)⟩ := by
  unfold start
  rw [hsteps]
  rw [runStepsFrom_append ui env doc.variables pre (bad :: post) [] 1 hpre]
  rw [Nat.add_comm 1 pre.length]
  simp [runStepsFrom,
    run_step_unknownKind ui env doc.variables
      (runStepsFrom ui env doc.variables [] 1 pre).values (pre.length + 1) bad hbad]

/-- Witness for C5: a document whose second step has kind `"wobble"`
runs step 1 (its note persists in the trace), fails at position 2
naming `"wobble"`, and never reaches step 3. -/
theorem C5_unknown_kind_fails_at_position_witness :
    start absentBridge trivialEnv
        { id := "p", title := "p", version := "1.0",
          steps := [{ kind := "note", text := "hello" }, { kind := "wobble" },
                    { kind := "note", text := "never" }] }
      = ⟨[], [.noted "hello"], some (.unknownKind 2 "wobble")⟩ := by
  have h := C5_unknown_kind_fails_at_position absentBridge trivialEnv
    { id := "p", title := "p", version := "1.0",
      steps := [{ kind := "note", text := "hello" }, { kind := "wobble" },
                { kind := "note", text := "never" }] }
    [{ kind := "note", text := "hello" }] [{ kind := "note", text := "never" }]
    { kind := "wobble" } rfl (by decide) rfl
  rw [h]
  rfl

/-! ## Directory loading collisions -/

theorem foldl_dictInsert_lookup (i : String) :
    ∀ (l : List PFile) (d : List (String × Protocol)),
      dictLookup (l.foldl (fun acc f => dictInsert acc f.proto.id f.proto) d) i
        = match lastWins l i with
          | some p => some p
          | Option.none => dictLookup d i := by
  intro l
  induction l with
  | nil => intro d; simp [lastWins]
  | cons f rest ih =>
    intro d
    simp only [List.foldl, lastWins]
    rw [ih]
    cases lastWins rest i with
    | some p => rfl
    | none =>
      by_cases hf : f.proto.id = i <;> simp [dictInsert, dictLookup, hf]

/-- C7 (amended): loading a directory yields the mapping from document
id to document in which, among the colliding documents, the one
processed last wins — where the processing order is all `.yml` files in
path-sorted order followed by all `.yaml` files in path-sorted order.
Last-sorted-wins therefore holds only among files of the same
extension: a colliding `.yaml` document always overwrites a colliding
`.yml` one, even when its path sorts earlier. -/
theorem C7_directory_collision_last_processed (files : List PFile) (i : String) :
    dictLookup (load_protocols files) i = lastWins (processOrder files) i := by
  unfold load_protocols
  rw [foldl_dictInsert_lookup i (processOrder files) []]
  cases lastWins (processOrder files) i <;> simp [dictLookup]

/-- Counterexample for C7 as stated: `a.yaml` and `b.yml` both declare
id `X`; `a.yaml` sorts before `b.yml`, yet the directory mapping keeps
the document of `a.yaml` (processed last because of its extension), not
the last-sorted `b.yml` one the claim requires. -/
theorem C7_collision_counterexample :
    dictLookup (load_protocols [⟨"b.yml", protoB⟩, ⟨"a.yaml", protoA⟩]) "X"
      = some protoA ∧
    pathLt "a.yaml" "b.yml" = true ∧
    protoA ≠ protoB := by
  refine ⟨rfl, rfl, ?_⟩
  intro h
  exact absurd (congrArg Protocol.title h) (by decide)

/-! ## State monotonicity -/

/-- A successful step leaves the accumulated state unchanged or
prepends exactly one binding. -/
theorem run_step_values_shape (ui : Bridge) (env : CallEnv)
    (vars : List (String × Variable)) (values : PyDict) (idx : Nat)
    (step : Step) (out : PyDict × List Event)
    (h : _run_step ui env vars values idx step = .ok out) :
    out.1 = values ∨ ∃ k v, out.1 = dictInsert values k v := by
  simp only [_run_step] at h
  repeat' split at h
  all_goals try exact Except.noConfusion h
  all_goals injection h with h2
  all_goals rw [← h2]
  all_goals first
    | (left; rfl)
    | (right; exact ⟨_, _, rfl⟩)

/-- Keys present in the accumulated state stay present through the rest
of a run, whether or not it completes. -/
theorem runStepsFrom_monotone (ui : Bridge) (env : CallEnv)
    (vars : List (String × Variable)) :
    ∀ (steps : List Step) (values : PyDict) (idx : Nat) (k : String),
      (dictLookup values k).isSome = true →
      (dictLookup (runStepsFrom ui env vars values idx steps).values k).isSome = true := by
  intro steps
  induction steps with
  | nil =>
    intro values idx k h
    simpa [runStepsFrom] using h
  | cons s rest ih =>
    intro values idx k h
    rcases hs : _run_step ui env vars values idx s with e | ⟨v', evs⟩
    · rw [runStepsFrom_cons_error ui env vars values e idx s rest hs]
      simpa using h
    · rw [runStepsFrom_cons_ok ui env vars values v' evs idx s rest hs]
      simp only []
      apply ih v' (idx + 1) k
      rcases run_step_values_shape ui env vars values idx s (v', evs) hs
        with h0 | ⟨k2, v2, h0⟩
      · simp only at h0
        rw [h0]
        exact h
      · simp only at h0
        rw [h0]
        by_cases hk : k2 = k <;> simp [dictInsert, dictLookup, hk, h]

/-- C9: the accumulated state is created empty at the start of a run
and its key set grows monotonically: from any point of a run onward, a
key present in the state is still present afterwards — no step removes
a key and the state is never reset mid-run. -/
theorem C9_state_monotonic (ui : Bridge) (env : CallEnv) (p : Protocol) :
    start ui env p = runStepsFrom ui env p.variables [] 1 p.steps ∧
    (∀ (steps : List Step) (values : PyDict) (idx : Nat) (k : String),
      (dictLookup values k).isSome = true →
      (dictLookup (runStepsFrom ui env p.variables values idx steps).values k).isSome
        = true) :=
  ⟨rfl, fun steps values idx k h =>
    runStepsFrom_monotone ui env p.variables steps values idx k h⟩

/-- Witness for C9: the key `x`, present before a declined confirm step
and an overwriting ask step, is still present afterwards. -/
theorem C9_state_monotonic_witness :
    (dictLookup ([("x", Value.int 1)] : PyDict) "x").isSome = true ∧
    (dictLookup (runStepsFrom declineBridge trivialEnv protoA.variables
        [("x", Value.int 1)] 1 [{ kind := "confirm" }]).values "x").isSome = true :=
  ⟨rfl, (C9_state_monotonic declineBridge trivialEnv protoA).2
    [{ kind := "confirm" }] [("x", Value.int 1)] 1 "x" rfl⟩

end SoundCraft
